import Mathlib

/-!
Shallow embedding of the TextHumanizer backend (src/backend/server.py).

The service has four endpoints under the /api prefix: rephrase, save
history, list history and delete history.  The embedding below follows the
source line by line: pydantic models become structures, the tone dictionary
becomes an association list with a lookup default, the MongoDB collection
becomes a list of stored documents, and each handler becomes a pure
function from its inputs (and the store state) to its outputs (and the new
store state).  Exceptions surfaced through HTTPException become an ApiError
value carrying the HTTP status and the detail string.
-/

namespace Humanizer

/-- Pydantic model RephraseRequest (server.py lines 29-31): a required
string field text and a string field tone defaulting to
"conversational". -/
structure RephraseRequest where
  text : String
  tone : String
deriving DecidableEq

/-- The raw JSON body of a POST /api/rephrase request, before pydantic
validation: each field may be present (a string) or absent. -/
structure RephraseBody where
  text : Option String
  tone : Option String

/-- Pydantic validation of RephraseRequest: text is required (missing
text makes the transport layer answer 422, modelled as none), tone
defaults to "conversational".  The declaration text : str puts no
constraint on the contents of the string, so the empty string passes. -/
def validateRephraseRequest (b : RephraseBody) : Option RephraseRequest :=
  match b.text with
  | none => none
  | some t => some { text := t, tone := b.tone.getD "conversational" }

/-- Pydantic model RephraseResponse (server.py lines 33-38). -/
structure RephraseResponse where
  rephrased_text : String
  original_text : String
  tone : String
  word_count : Nat
  char_count : Nat
deriving DecidableEq

/-- Pydantic model HistoryCreate (server.py lines 48-51). -/
structure HistoryCreate where
  original_text : String
  rephrased_text : String
  tone : String
deriving DecidableEq

/-- Pydantic model HistoryItem (server.py lines 40-46).  The timestamp is
an instant; instants are modelled as natural numbers, ordered as the
UTC instants (equivalently, as their ISO-8601 serializations, whose
lexicographic order agrees with the order of the instants). -/
structure HistoryItem where
  id : String
  original_text : String
  rephrased_text : String
  tone : String
  timestamp : Nat
deriving DecidableEq

/-- A document of the db.history MongoDB collection: the fields of a
HistoryItem as stored by save_history, plus the internal identifier _id
that MongoDB adds to every inserted document (modelled as mongo_oid). -/
structure StoredDoc where
  mongo_oid : Nat
  id : String
  original_text : String
  rephrased_text : String
  tone : String
  timestamp : Nat
deriving DecidableEq

/-- The state of the db.history collection. -/
abbrev Store := List StoredDoc

/-- An HTTPException surfaced to the caller: status code and detail. -/
structure ApiError where
  status : Nat
  detail : String
deriving DecidableEq

/-! ### Tone templates (server.py lines 67-74) -/

/-- tone_prompts value for key "formal". -/
def formal_prompt : String :=
  "You are an expert English writer. Rephrase the user\x27s text into formal, professional, grammatically correct English that sounds natural and polished. Preserve the original meaning and context. Only return the rephrased text, nothing else."

/-- tone_prompts value for key "conversational". -/
def conversational_prompt : String :=
  "You are an expert English writer. Rephrase the user\x27s text into natural, conversational, grammatically correct English that sounds human and friendly. Preserve the original meaning and context. Only return the rephrased text, nothing else."

/-- tone_prompts value for key "academic". -/
def academic_prompt : String :=
  "You are an expert academic writer. Rephrase the user\x27s text into scholarly, precise, grammatically correct English suitable for academic papers. Preserve the original meaning and context. Only return the rephrased text, nothing else."

/-- tone_prompts value for key "creative". -/
def creative_prompt : String :=
  "You are a creative writer. Rephrase the user\x27s text into engaging, expressive, grammatically correct English with a creative flair. Preserve the original meaning and context. Only return the rephrased text, nothing else."

/-- The tone_prompts dictionary (server.py lines 67-72). -/
def tone_prompts : List (String × String) :=
  [("formal", formal_prompt),
   ("conversational", conversational_prompt),
   ("academic", academic_prompt),
   ("creative", creative_prompt)]

/-- system_message = tone_prompts.get(request.tone, tone_prompts["conversational"])
(server.py line 74): dictionary lookup with the conversational template as
the default for keys not in the dictionary. -/
def resolveSystemMessage (tone : String) : String :=
  (tone_prompts.lookup tone).getD conversational_prompt

/-! ### Python str.split() and the response statistics (server.py lines 90-99) -/

/-- The whitespace characters on which the Python method str.split()
(called with no argument) splits: space, tab, newline, vertical tab,
form feed, carriage return. -/
def pyIsSpace (c : Char) : Bool :=
  c = ' ' || c = '\t' || c = '\n' || c = '\x0b' || c = '\x0c' || c = '\r'

/-- Worker for pySplit: acc holds the characters of the token currently
being read, in reverse order. -/
def splitAux : List Char → List Char → List (List Char)
  | [], acc => if acc.isEmpty then [] else [acc.reverse]
  | c :: cs, acc =>
      if pyIsSpace c then
        if acc.isEmpty then splitAux cs [] else acc.reverse :: splitAux cs []
      else splitAux cs (c :: acc)

/-- Python response.split(): the maximal runs of non-whitespace characters
of the string, in order; runs of whitespace separate tokens and empty
tokens are never produced. -/
def pySplit (cs : List Char) : List (List Char) :=
  splitAux cs []

/-- The RephraseResponse built on a successful provider call (server.py
lines 90-99): word_count = len(response.split()),
char_count = len(response), and the request text and tone echoed back. -/
def mkRephraseResponse (req : RephraseRequest) (response : String) : RephraseResponse :=
  { rephrased_text := response
    original_text := req.text
    tone := req.tone
    word_count := (pySplit response.data).length
    char_count := response.length }

/-! ### Error branches of the handlers -/

/-- The blanket except branch of rephrase_text (server.py lines 100-102):
the exception text e is logged and then, unlike in the history handlers,
interpolated into the detail of the 500 answer. -/
def rephrase_on_error (e : String) : ApiError :=
  { status := 500, detail := "Failed to rephrase text: " ++ e }

/-- The except branch of save_history (server.py lines 112-114): the
exception text is logged only; the detail of the 500 answer is a fixed
generic message. -/
def save_history_on_error (_e : String) : ApiError :=
  { status := 500, detail := "Failed to save history" }

/-- The except branch of get_history (server.py lines 124-126). -/
def fetch_history_on_error (_e : String) : ApiError :=
  { status := 500, detail := "Failed to fetch history" }

/-- The blanket except branch of delete_history_item (server.py lines
137-139); the 404 HTTPException is re-raised before it by the
dedicated except HTTPException branch. -/
def delete_history_on_error (_e : String) : ApiError :=
  { status := 500, detail := "Failed to delete history" }

/-! ### The rephrase handler (server.py lines 58-102) -/

/-- The rephrase_text handler.  Inputs: the store state (the handler body
never touches it: it contains no db operation), the validated request,
the EMERGENT_LLM_KEY environment value (none when unset; Python
falsiness also treats the empty string as missing), and the provider,
a function from the system message and the user text to the outcome of
the single chat.send_message call.  The missing-key HTTPException(500,
"API key not configured") raised inside the try block is caught by the
blanket except branch, whose str(e) renders it as
"500: API key not configured". -/
def rephrase_step (σ : Store) (req : RephraseRequest) (api_key : Option String)
    (provider : String → String → Except String String) :
    Store × Except ApiError RephraseResponse :=
  if (api_key.getD "").isEmpty then
    (σ, Except.error (rephrase_on_error "500: API key not configured"))
  else
    match provider (resolveSystemMessage req.tone) req.text with
    | Except.error e => (σ, Except.error (rephrase_on_error e))
    | Except.ok completion => (σ, Except.ok (mkRephraseResponse req completion))

/-! ### The history handlers (server.py lines 104-139) -/

/-- Dropping the internal MongoDB identifier of a stored document yields
the HistoryItem with the semantic fields: this is the projection
performed by find({}, ⟨"_id": 0⟩) together with the response_model
HistoryItem validation. -/
def toHistoryItem (d : StoredDoc) : HistoryItem :=
  { id := d.id
    original_text := d.original_text
    rephrased_text := d.rephrased_text
    tone := d.tone
    timestamp := d.timestamp }

/-- The document inserted by save_history: the fields of the HistoryCreate
input, the freshly generated uuid new_id, the current UTC instant now,
and the internal identifier oid that MongoDB assigns on insertion. -/
def newDoc (input : HistoryCreate) (new_id : String) (now oid : Nat) : StoredDoc :=
  { mongo_oid := oid
    id := new_id
    original_text := input.original_text
    rephrased_text := input.rephrased_text
    tone := input.tone
    timestamp := now }

/-- The save_history handler (server.py lines 104-111): it builds a
HistoryItem from the input (pydantic generates id and timestamp, here
passed as new_id and now), inserts the corresponding document into the
collection, and returns the HistoryItem. -/
def save_history (input : HistoryCreate) (new_id : String) (now : Nat) (oid : Nat)
    (σ : Store) : Store × HistoryItem :=
  (σ ++ [newDoc input new_id now oid], toHistoryItem (newDoc input new_id now oid))

/-- The sort key of find(...).sort("timestamp", -1): descending timestamp
order. -/
def tsDesc (a b : StoredDoc) : Prop :=
  b.timestamp ≤ a.timestamp

instance : DecidableRel tsDesc :=
  fun a b => inferInstanceAs (Decidable (b.timestamp ≤ a.timestamp))

instance : IsTotal StoredDoc tsDesc :=
  ⟨fun a b => (Nat.le_total a.timestamp b.timestamp).symm⟩

instance : IsTrans StoredDoc tsDesc :=
  ⟨fun _ _ _ hab hbc => le_trans hbc hab⟩

/-- The get_history handler (server.py lines 116-123):
find({}, ⟨"_id": 0⟩).sort("timestamp", -1).to_list(50) sorts the whole
collection by descending timestamp, keeps the first 50 documents, drops
the internal identifier of each, and returns them as HistoryItems. -/
def get_history (σ : Store) : List HistoryItem :=
  ((List.insertionSort tsDesc σ).take 50).map toHistoryItem

/-- db.history.delete_one(⟨"id": history_id⟩) (server.py line 131):
removes the first document whose id field equals history_id, if any,
and reports the number of deleted documents (1 or 0). -/
def delete_one (i : String) (σ : Store) : Store × Nat :=
  (σ.eraseP (fun d => d.id == i),
   if σ.any (fun d => d.id == i) then 1 else 0)

/-- The delete_history_item handler (server.py lines 128-139): calls
delete_one and answers 404 when deleted_count is 0 (the 404
HTTPException passes the except HTTPException branch unchanged),
otherwise answers 200 with the message "History item deleted". -/
def delete_history_item (i : String) (σ : Store) : Store × Except ApiError String :=
  let r := delete_one i σ
  if r.2 = 0 then
    (r.1, Except.error { status := 404, detail := "History item not found" })
  else
    (r.1, Except.ok "History item deleted")

/-- The number of documents of the store whose id field is i. -/
def idCount (i : String) (σ : Store) : Nat :=
  σ.countP (fun d => d.id == i)

/-! ### Timestamps: datetime.isoformat and datetime.fromisoformat

save_history stores the timestamp serialized by datetime.isoformat
(server.py line 109) and get_history parses it back with
datetime.fromisoformat (server.py line 122).  The instants generated by
datetime.now(timezone.utc) are UTC datetimes; DT models such a value by
its components.  isoformat renders it as
YYYY-MM-DDTHH:MM:SS[.ffffff]+00:00, the fractional part omitted when the
microsecond field is 0, and fromisoformat parses that shape back. -/

/-- A timezone-aware UTC datetime as produced by datetime.now(timezone.utc). -/
structure DT where
  year : Nat
  month : Nat
  day : Nat
  hour : Nat
  minute : Nat
  second : Nat
  microsecond : Nat
deriving DecidableEq

/-- The ranges of the fields of a Python datetime (UTC). -/
abbrev validDT (d : DT) : Prop :=
  d.year ≤ 9999 ∧ 1 ≤ d.month ∧ d.month ≤ 12 ∧ 1 ≤ d.day ∧ d.day ≤ 31 ∧
    d.hour ≤ 23 ∧ d.minute ≤ 59 ∧ d.second ≤ 59 ∧ d.microsecond ≤ 999999

/-- The decimal digit character for n % 10. -/
def dchar (n : Nat) : Char :=
  match n % 10 with
  | 0 => '0' | 1 => '1' | 2 => '2' | 3 => '3' | 4 => '4'
  | 5 => '5' | 6 => '6' | 7 => '7' | 8 => '8' | _ => '9'

/-- The value of a decimal digit character. -/
def dval (c : Char) : Nat :=
  c.toNat - 48

/-- Whether c is a decimal digit character. -/
def isDigitChar (c : Char) : Bool :=
  48 ≤ c.toNat && c.toNat ≤ 57

/-- The k decimal digits of n (n < 10 ^ k), most significant first. -/
def pad : Nat → Nat → List Char
  | 0, _ => []
  | k + 1, n => dchar (n / 10 ^ k) :: pad k (n % 10 ^ k)

/-- The fixed UTC offset suffix "+00:00" of isoformat on an aware UTC
datetime. -/
def tzPart : List Char :=
  ['+', '0', '0', ':', '0', '0']

/-- The fractional-seconds part of isoformat: empty when the microsecond
field is 0, otherwise a dot and six digits. -/
def microPart (us : Nat) : List Char :=
  if us = 0 then [] else '.' :: pad 6 us

/-- datetime.isoformat on an aware UTC datetime:
YYYY-MM-DDTHH:MM:SS[.ffffff]+00:00. -/
def isoformat (d : DT) : List Char :=
  pad 4 d.year ++ '-' ::
    (pad 2 d.month ++ '-' ::
      (pad 2 d.day ++ 'T' ::
        (pad 2 d.hour ++ ':' ::
          (pad 2 d.minute ++ ':' ::
            (pad 2 d.second ++ (microPart d.microsecond ++ tzPart))))))

/-- Reads exactly k decimal digit characters, folding them onto acc. -/
def readFixedAux : Nat → Nat → List Char → Option (Nat × List Char)
  | 0, acc, cs => some (acc, cs)
  | _ + 1, _, [] => none
  | k + 1, acc, c :: cs =>
      if isDigitChar c then readFixedAux k (acc * 10 + dval c) cs else none

/-- Reads exactly k decimal digit characters as a number. -/
def readFixed (k : Nat) (cs : List Char) : Option (Nat × List Char) :=
  readFixedAux k 0 cs

/-- Consumes the expected character c at the head of the input. -/
def expectChar (c : Char) : List Char → Option (List Char)
  | [] => none
  | d :: cs => if d = c then some cs else none

/-- Parses the optional fractional-seconds part: a dot followed by six
digits, or nothing (microsecond 0). -/
def readMicro : List Char → Option (Nat × List Char)
  | [] => some (0, [])
  | c :: cs => if c = '.' then readFixed 6 cs else some (0, c :: cs)

/-- datetime.fromisoformat on the strings produced by isoformat on aware
UTC datetimes: date, time, optional fractional seconds, and the +00:00
offset. -/
def fromisoformat (cs : List Char) : Option DT :=
  (readFixed 4 cs).bind fun (y, cs) =>
  (expectChar '-' cs).bind fun cs =>
  (readFixed 2 cs).bind fun (mo, cs) =>
  (expectChar '-' cs).bind fun cs =>
  (readFixed 2 cs).bind fun (dy, cs) =>
  (expectChar 'T' cs).bind fun cs =>
  (readFixed 2 cs).bind fun (hr, cs) =>
  (expectChar ':' cs).bind fun cs =>
  (readFixed 2 cs).bind fun (mi, cs) =>
  (expectChar ':' cs).bind fun cs =>
  (readFixed 2 cs).bind fun (sec, cs) =>
  (readMicro cs).bind fun (us, cs) =>
  if cs = tzPart then
    some { year := y, month := mo, day := dy,
           hour := hr, minute := mi, second := sec, microsecond := us }
  else none

/-! ### Lemmas about digits and fixed-width decimal parsing -/

theorem dval_dchar (n : Nat) : dval (dchar n) = n % 10 := by
  have h : n % 10 = 0 ∨ n % 10 = 1 ∨ n % 10 = 2 ∨ n % 10 = 3 ∨ n % 10 = 4 ∨
      n % 10 = 5 ∨ n % 10 = 6 ∨ n % 10 = 7 ∨ n % 10 = 8 ∨ n % 10 = 9 := by omega
  unfold dchar
  rcases h with h | h | h | h | h | h | h | h | h | h <;> rw [h] <;> rfl

theorem isDigitChar_dchar (n : Nat) : isDigitChar (dchar n) = true := by
  have h : n % 10 = 0 ∨ n % 10 = 1 ∨ n % 10 = 2 ∨ n % 10 = 3 ∨ n % 10 = 4 ∨
      n % 10 = 5 ∨ n % 10 = 6 ∨ n % 10 = 7 ∨ n % 10 = 8 ∨ n % 10 = 9 := by omega
  unfold dchar
  rcases h with h | h | h | h | h | h | h | h | h | h <;> rw [h] <;> rfl

theorem readFixedAux_pad (k : Nat) :
    ∀ (acc n : Nat) (rest : List Char), n < 10 ^ k →
      readFixedAux k acc (pad k n ++ rest) = some (acc * 10 ^ k + n, rest) := by
  induction k with
  | zero =>
      intro acc n rest h
      have hn : n = 0 := by omega
      simp [pad, readFixedAux, hn]
  | succ k ih =>
      intro acc n rest h
      have hmod : n % 10 ^ k < 10 ^ k :=
        Nat.mod_lt _ (pow_pos (by omega) k)
      have hlt : n / 10 ^ k < 10 := by
        rw [pow_succ] at h
        exact Nat.div_lt_of_lt_mul h
      simp only [pad, List.cons_append, readFixedAux, isDigitChar_dchar, if_true,
        List.append_eq]
      rw [ih _ _ _ hmod]
      have harith : (acc * 10 + dval (dchar (n / 10 ^ k))) * 10 ^ k + n % 10 ^ k =
          acc * 10 ^ (k + 1) + n := by
        rw [dval_dchar, Nat.mod_eq_of_lt hlt]
        have h1 : (acc * 10 + n / 10 ^ k) * 10 ^ k + n % 10 ^ k =
            acc * (10 ^ k * 10) + (10 ^ k * (n / 10 ^ k) + n % 10 ^ k) := by ring
        rw [h1, Nat.div_add_mod, ← pow_succ]
      rw [harith]

theorem readFixed_pad (k n : Nat) (rest : List Char) (h : n < 10 ^ k) :
    readFixed k (pad k n ++ rest) = some (n, rest) := by
  have := readFixedAux_pad k 0 n rest h
  simpa [readFixed] using this

theorem expectChar_cons_self (c : Char) (cs : List Char) :
    expectChar c (c :: cs) = some cs := by
  simp [expectChar]

theorem readMicro_tz : readMicro tzPart = some (0, tzPart) := rfl

theorem readMicro_dot (cs : List Char) : readMicro ('.' :: cs) = readFixed 6 cs := by
  rw [readMicro]
  exact if_pos rfl

/-- C10: serializing a timestamp generated at record creation with
datetime.isoformat (as save_history stores it) and parsing the string
back with datetime.fromisoformat (as get_history reads it) yields the
original timestamp, so the timestamp read from list-history equals the
timestamp returned by the create that produced the record. -/
theorem fromisoformat_isoformat (d : DT) (h : validDT d) :
    fromisoformat (isoformat d) = some d := by
  obtain ⟨hy, hmo1, hmo2, hd1, hd2, hh, hmi, hs, hus⟩ := h
  unfold fromisoformat isoformat
  rw [readFixed_pad 4 d.year _ (by omega)]
  simp only [Option.some_bind, expectChar_cons_self]
  rw [readFixed_pad 2 d.month _ (by omega)]
  simp only [Option.some_bind, expectChar_cons_self]
  rw [readFixed_pad 2 d.day _ (by omega)]
  simp only [Option.some_bind, expectChar_cons_self]
  rw [readFixed_pad 2 d.hour _ (by omega)]
  simp only [Option.some_bind, expectChar_cons_self]
  rw [readFixed_pad 2 d.minute _ (by omega)]
  simp only [Option.some_bind, expectChar_cons_self]
  rw [readFixed_pad 2 d.second _ (by omega)]
  simp only [Option.some_bind, expectChar_cons_self]
  by_cases hz : d.microsecond = 0
  · simp only [microPart, hz, if_pos, List.nil_append]
    rw [readMicro_tz]
    simp only [Option.some_bind, if_pos rfl]
    rw [← hz]
    simp
  · simp only [microPart, if_neg hz, List.cons_append]
    rw [readMicro_dot, readFixed_pad 6 d.microsecond _ (by omega)]
    simp only [Option.some_bind, if_pos rfl]
    simp

/-- Witness for C10: the round trip at a concrete UTC datetime. -/
theorem fromisoformat_isoformat_witness :
    validDT ⟨2026, 10, 12, 5, 30, 45, 123456⟩ ∧
    fromisoformat (isoformat ⟨2026, 10, 12, 5, 30, 45, 123456⟩) =
      some ⟨2026, 10, 12, 5, 30, 45, 123456⟩ :=
  ⟨by decide, fromisoformat_isoformat ⟨2026, 10, 12, 5, 30, 45, 123456⟩ (by decide)⟩

/-- Every token produced by splitAux (from a whitespace-free accumulator)
is nonempty and contains no whitespace character. -/
theorem splitAux_tokens :
    ∀ (cs acc : List Char), (∀ c ∈ acc, pyIsSpace c = false) →
      ∀ t ∈ splitAux cs acc, t ≠ [] ∧ ∀ c ∈ t, pyIsSpace c = false := by
  intro cs
  induction cs with
  | nil =>
      intro acc hacc t ht
      by_cases he : acc.isEmpty
      · simp [splitAux, he] at ht
      · rw [splitAux, if_neg he] at ht
        rw [List.mem_singleton] at ht
        subst ht
        refine ⟨?_, ?_⟩
        · simp only [ne_eq, List.reverse_eq_nil_iff]
          intro hnil
          exact he (by simp [hnil])
        · intro c hc
          exact hacc c (List.mem_reverse.mp hc)
  | cons c cs ih =>
      intro acc hacc t ht
      by_cases hsp : pyIsSpace c
      · rw [splitAux, if_pos hsp] at ht
        by_cases he : acc.isEmpty
        · rw [if_pos he] at ht
          exact ih [] (by simp) t ht
        · rw [if_neg he] at ht
          rcases List.mem_cons.mp ht with h | h
          · subst h
            refine ⟨?_, ?_⟩
            · simp only [ne_eq, List.reverse_eq_nil_iff]
              intro hnil
              exact he (by simp [hnil])
            · intro x hx
              exact hacc x (List.mem_reverse.mp hx)
          · exact ih [] (by simp) t h
      · rw [splitAux, if_neg hsp] at ht
        refine ih (c :: acc) ?_ t ht
        intro x hx
        rcases List.mem_cons.mp hx with h | h
        · subst h
          simpa using hsp
        · exact hacc x h

/-- Every token of pySplit is nonempty and whitespace-free. -/
theorem pySplit_tokens (cs : List Char) :
    ∀ t ∈ pySplit cs, t ≠ [] ∧ ∀ c ∈ t, pyIsSpace c = false :=
  splitAux_tokens cs [] (by simp)

/-! ### Lemmas about eraseP and countP -/

theorem any_iff_countP_pos {α : Type} (p : α → Bool) (l : List α) :
    l.any p = true ↔ 0 < l.countP p := by
  rw [List.any_eq_true, List.countP_pos_iff]

theorem countP_eraseP_of_pos {α : Type} (p : α → Bool) :
    ∀ l : List α, 0 < l.countP p → (l.eraseP p).countP p = l.countP p - 1 := by
  intro l
  induction l with
  | nil => simp
  | cons a t ih =>
      intro hpos
      by_cases hp : p a
      · rw [List.eraseP_cons, hp]
        simp [List.countP_cons, hp]
      · have hpos' : 0 < t.countP p := by
          rw [List.countP_cons] at hpos
          simpa [hp] using hpos
        rw [List.eraseP_cons]
        simp only [hp, cond_false]
        rw [List.countP_cons, List.countP_cons]
        simp only [hp, if_false]
        rw [ih hpos']
        omega

theorem eraseP_of_countP_zero {α : Type} (p : α → Bool) (l : List α)
    (h : l.countP p = 0) : l.eraseP p = l := by
  apply List.eraseP_of_forall_not
  intro x hx hpx
  have : 0 < l.countP p := List.countP_pos_iff.mpr ⟨x, hx, hpx⟩
  omega

/-! ### Claim C1: tone template resolution -/

/-- C1: the resolved system instruction is one of the four fixed templates:
the tones "formal", "conversational", "academic" and "creative" select
their own templates, and every other tone string selects the
conversational template (a total function: no error is possible). -/
theorem tone_template_resolution (t : String)
    (h : t ≠ "formal" ∧ t ≠ "conversational" ∧ t ≠ "academic" ∧ t ≠ "creative") :
    resolveSystemMessage "formal" = formal_prompt ∧
    resolveSystemMessage "conversational" = conversational_prompt ∧
    resolveSystemMessage "academic" = academic_prompt ∧
    resolveSystemMessage "creative" = creative_prompt ∧
    resolveSystemMessage t = conversational_prompt := by
  obtain ⟨h1, h2, h3, h4⟩ := h
  have e1 : (t == "formal") = false := beq_eq_false_iff_ne.mpr h1
  have e2 : (t == "conversational") = false := beq_eq_false_iff_ne.mpr h2
  have e3 : (t == "academic") = false := beq_eq_false_iff_ne.mpr h3
  have e4 : (t == "creative") = false := beq_eq_false_iff_ne.mpr h4
  refine ⟨rfl, rfl, rfl, rfl, ?_⟩
  simp [resolveSystemMessage, tone_prompts, List.lookup, e1, e2, e3, e4]

/-- Witness for C1: the unknown tone "pirate" resolves to the
conversational template. -/
theorem tone_template_resolution_witness :
    resolveSystemMessage "formal" = formal_prompt ∧
    resolveSystemMessage "conversational" = conversational_prompt ∧
    resolveSystemMessage "academic" = academic_prompt ∧
    resolveSystemMessage "creative" = creative_prompt ∧
    resolveSystemMessage "pirate" = conversational_prompt :=
  tone_template_resolution "pirate" (by decide)

/-! ### Claim C2: schema validation of the empty text -/

/-- C2 (evaluation of the code at the failing input): the pydantic schema
of RephraseRequest declares text as a plain string with no minimum
length, so a body with the empty string as text passes validation and
reaches the handler (and hence the provider call); it is not rejected
with 422, contrary to the spec and to backend_test.py. -/
theorem empty_text_passes_schema :
    validateRephraseRequest { text := some "", tone := some "conversational" } =
      some { text := "", tone := "conversational" } := rfl

/-! ### Claim C3: word and character counts -/

/-- C3: for every completion returned by the provider, word_count is the
number of whitespace-delimited tokens of the completion (each token
nonempty and whitespace-free), char_count is its length in characters,
and both are nonnegative. -/
theorem rephrase_counts (req : RephraseRequest) (completion : String) :
    (mkRephraseResponse req completion).word_count = (pySplit completion.data).length ∧
    (mkRephraseResponse req completion).char_count = completion.data.length ∧
    0 ≤ (mkRephraseResponse req completion).word_count ∧
    0 ≤ (mkRephraseResponse req completion).char_count ∧
    ∀ t ∈ pySplit completion.data, t ≠ [] ∧ ∀ c ∈ t, pyIsSpace c = false :=
  ⟨rfl, rfl, Nat.zero_le _, Nat.zero_le _, pySplit_tokens completion.data⟩

/-- Witness for C3: on the completion " hi  there " the counts are
computed and the token "hi" is nonempty and whitespace-free. -/
theorem rephrase_counts_witness :
    (mkRephraseResponse ⟨"x", "formal"⟩ " hi  there ").word_count =
      (pySplit " hi  there ".data).length ∧
    ("hi".data ≠ [] ∧ ∀ c ∈ "hi".data, pyIsSpace c = false) :=
  ⟨(rephrase_counts ⟨"x", "formal"⟩ " hi  there ").1,
   (rephrase_counts ⟨"x", "formal"⟩ " hi  there ").2.2.2.2 "hi".data (by decide)⟩

/-! ### Claim C4: listing history -/

/-- C4: for every store state, get_history returns at most 50 records,
their timestamps are non-increasing from first to last, and every
returned record is the projection of a stored document to the semantic
fields (id, original_text, rephrased_text, tone, timestamp), without
the internal identifier. -/
theorem get_history_spec (σ : Store) :
    (get_history σ).length ≤ 50 ∧
    (get_history σ).Pairwise (fun a b => b.timestamp ≤ a.timestamp) ∧
    ∀ it ∈ get_history σ, ∃ d ∈ σ, it = toHistoryItem d := by
  refine ⟨?_, ?_, ?_⟩
  · rw [get_history, List.length_map]
    exact List.length_take_le _ _
  · have hs : List.Sorted tsDesc (List.insertionSort tsDesc σ) :=
      List.sorted_insertionSort tsDesc σ
    have ht : List.Pairwise tsDesc ((List.insertionSort tsDesc σ).take 50) :=
      List.Pairwise.sublist (List.take_sublist _ _) hs
    rw [get_history, List.pairwise_map]
    exact ht
  · intro it hit
    rw [get_history, List.mem_map] at hit
    obtain ⟨d, hd, hdit⟩ := hit
    refine ⟨d, ?_, hdit.symm⟩
    have hmem : d ∈ List.insertionSort tsDesc σ := List.take_subset _ _ hd
    exact (List.perm_insertionSort tsDesc σ).subset hmem

/-- Witness for C4: on a one-document store the returned record is the
projection of the stored document. -/
theorem get_history_spec_witness :
    ∃ d ∈ ([⟨7, "id-1", "orig", "reph", "formal", 100⟩] : Store),
      toHistoryItem ⟨7, "id-1", "orig", "reph", "formal", 100⟩ = toHistoryItem d :=
  (get_history_spec [⟨7, "id-1", "orig", "reph", "formal", 100⟩]).2.2
    (toHistoryItem ⟨7, "id-1", "orig", "reph", "formal", 100⟩) (by decide)

/-! ### Claim C5: deleting history items -/

/-- C5: deleting an id present in the store succeeds with the message
"History item deleted" and removes the matching record; deleting an
absent id answers 404 "History item not found" and leaves the store
unchanged; in particular (ids being unique uuids, so an id occurs at
most once) deleting the same id twice succeeds the first time and
answers 404 the second time. -/
theorem delete_history_item_spec (σ : Store) (i : String)
    (huniq : idCount i σ ≤ 1) :
    (0 < idCount i σ →
      (delete_history_item i σ).2 = Except.ok "History item deleted" ∧
      idCount i (delete_history_item i σ).1 = 0 ∧
      (delete_history_item i (delete_history_item i σ).1).2 =
        Except.error { status := 404, detail := "History item not found" }) ∧
    (idCount i σ = 0 →
      (delete_history_item i σ).2 =
        Except.error { status := 404, detail := "History item not found" } ∧
      (delete_history_item i σ).1 = σ) := by
  have habs : ∀ τ : Store, idCount i τ = 0 →
      (delete_history_item i τ).2 =
        Except.error { status := 404, detail := "History item not found" } ∧
      (delete_history_item i τ).1 = τ := by
    intro τ h0
    unfold idCount at h0
    have hany : τ.any (fun d => d.id == i) = false := by
      cases hA : τ.any (fun d => d.id == i)
      · rfl
      · have := (any_iff_countP_pos (fun d => d.id == i) τ).mp hA
        omega
    have herase : τ.eraseP (fun d => d.id == i) = τ :=
      eraseP_of_countP_zero (fun d => d.id == i) τ h0
    constructor
    · simp [delete_history_item, delete_one, hany]
    · simp [delete_history_item, delete_one, hany, herase]
  constructor
  · intro hpos
    unfold idCount at hpos
    have hany : σ.any (fun d => d.id == i) = true :=
      (any_iff_countP_pos (fun d => d.id == i) σ).mpr hpos
    have hdel : (delete_history_item i σ).1 = σ.eraseP (fun d => d.id == i) := by
      simp [delete_history_item, delete_one, hany]
    have hcount0 : idCount i (σ.eraseP (fun d => d.id == i)) = 0 := by
      have hc := countP_eraseP_of_pos (fun d => d.id == i) σ hpos
      unfold idCount at huniq ⊢
      omega
    refine ⟨?_, ?_, ?_⟩
    · simp [delete_history_item, delete_one, hany]
    · rw [hdel]
      exact hcount0
    · rw [hdel]
      exact (habs _ hcount0).1
  · intro h0
    exact habs σ h0

/-- Witness for C5: on a one-document store, deleting its id succeeds,
empties the store of that id, and deleting it again answers 404. -/
theorem delete_history_item_spec_witness :
    (delete_history_item "id-1" [⟨7, "id-1", "o", "r", "formal", 100⟩]).2 =
      Except.ok "History item deleted" ∧
    idCount "id-1" (delete_history_item "id-1" [⟨7, "id-1", "o", "r", "formal", 100⟩]).1 = 0 ∧
    (delete_history_item "id-1"
        (delete_history_item "id-1" [⟨7, "id-1", "o", "r", "formal", 100⟩]).1).2 =
      Except.error { status := 404, detail := "History item not found" } :=
  (delete_history_item_spec [⟨7, "id-1", "o", "r", "formal", 100⟩] "id-1"
    (by decide)).1 (by decide)

/-! ### Claim C6: error surfacing -/

/-- C6 counterexample: the rephrase handler interpolates the exception
text into the detail of its 500 answer, so the underlying cause IS
included in the response: at cause "boom" the detail is the generic
message with "boom" appended, and the answer differs from the answer
for another cause. -/
theorem rephrase_error_exposes_cause :
    (rephrase_on_error "boom").detail = "Failed to rephrase text: " ++ "boom" ∧
    rephrase_on_error "boom" ≠ rephrase_on_error "other" :=
  ⟨rfl, by decide⟩

/-- C6 (amended): the history handlers (save, list, delete) answer
failures with 500 and a fixed generic message independent of the
exception text, which is only logged; the rephrase handler instead
answers 500 with the exception text appended to its message. -/
theorem error_details_amended (e e₂ : String) :
    save_history_on_error e = { status := 500, detail := "Failed to save history" } ∧
    fetch_history_on_error e = { status := 500, detail := "Failed to fetch history" } ∧
    delete_history_on_error e = { status := 500, detail := "Failed to delete history" } ∧
    save_history_on_error e = save_history_on_error e₂ ∧
    fetch_history_on_error e = fetch_history_on_error e₂ ∧
    delete_history_on_error e = delete_history_on_error e₂ ∧
    rephrase_on_error e = { status := 500, detail := "Failed to rephrase text: " ++ e } :=
  ⟨rfl, rfl, rfl, rfl, rfl, rfl, rfl⟩

/-! ### Claim C7: create then list -/

/-- C7: creating a history record (whose timestamp, generated at creation,
is larger than every timestamp already in the store, time being
monotone) and then listing history yields the created record as the
first entry. -/
theorem save_then_list_first (input : HistoryCreate) (new_id : String) (now oid : Nat)
    (σ : Store) (hfresh : ∀ d ∈ σ, d.timestamp < now) :
    (get_history (save_history input new_id now oid σ).1).head? =
      some ((save_history input new_id now oid σ).2) := by
  have h1 : (save_history input new_id now oid σ).1 = σ ++ [newDoc input new_id now oid] :=
    rfl
  rw [h1, get_history]
  have hperm := List.perm_insertionSort tsDesc (σ ++ [newDoc input new_id now oid])
  have hsorted := List.sorted_insertionSort tsDesc (σ ++ [newDoc input new_id now oid])
  have hmem : newDoc input new_id now oid ∈
      List.insertionSort tsDesc (σ ++ [newDoc input new_id now oid]) := by
    rw [hperm.mem_iff]
    simp
  rcases hL : List.insertionSort tsDesc (σ ++ [newDoc input new_id now oid]) with _ | ⟨h, t⟩
  · rw [hL] at hmem
    simp at hmem
  · rw [hL] at hmem hsorted
    rw [List.sorted_cons] at hsorted
    have hhd : h = newDoc input new_id now oid := by
      have hh : h ∈ σ ++ [newDoc input new_id now oid] := by
        refine hperm.subset ?_
        rw [hL]
        exact List.mem_cons_self h t
      rcases List.mem_append.mp hh with hin | hin
      · exfalso
        have hlt : h.timestamp < now := hfresh h hin
        rcases List.mem_cons.mp hmem with he | ht
        · have : now < now := by
            have := congrArg StoredDoc.timestamp he
            simp [newDoc] at this
            omega
          omega
        · have hle : tsDesc h (newDoc input new_id now oid) := hsorted.1 _ ht
          unfold tsDesc newDoc at hle
          simp at hle
          omega
      · simpa using hin
    subst hhd
    rfl

/-- Witness for C7: creating a record with timestamp 10 over a store
holding one record with timestamp 5 lists the new record first. -/
theorem save_then_list_first_witness :
    (get_history (save_history ⟨"o", "r", "formal"⟩ "id-2" 10 1
        [⟨0, "id-0", "a", "b", "casual", 5⟩]).1).head? =
      some ((save_history ⟨"o", "r", "formal"⟩ "id-2" 10 1
        [⟨0, "id-0", "a", "b", "casual", 5⟩]).2) :=
  save_then_list_first ⟨"o", "r", "formal"⟩ "id-2" 10 1
    [⟨0, "id-0", "a", "b", "casual", 5⟩] (by decide)

/-! ### Claim C8: the rephrase handler never touches the store -/

/-- C8: whatever the request, the configured credential and the provider
outcome (success or failure), the rephrase handler leaves the history
store unchanged: its body contains no store operation. -/
theorem rephrase_preserves_store (σ : Store) (req : RephraseRequest)
    (api_key : Option String) (provider : String → String → Except String String) :
    (rephrase_step σ req api_key provider).1 = σ := by
  unfold rephrase_step
  by_cases hk : (api_key.getD "").isEmpty
  · rw [if_pos hk]
  · rw [if_neg hk]
    cases provider (resolveSystemMessage req.tone) req.text <;> rfl

/-! ### Claim C9: the response echoes the request -/

/-- C9: every successful rephrase answer echoes the request text as
original_text and the request tone string verbatim as tone, also when
the tone is unrecognized and the conversational template was used. -/
theorem rephrase_echoes_request (σ : Store) (req : RephraseRequest)
    (api_key : Option String) (provider : String → String → Except String String)
    (resp : RephraseResponse)
    (h : (rephrase_step σ req api_key provider).2 = Except.ok resp) :
    resp.original_text = req.text ∧ resp.tone = req.tone := by
  unfold rephrase_step at h
  by_cases hk : (api_key.getD "").isEmpty
  · rw [if_pos hk] at h
    simp at h
  · rw [if_neg hk] at h
    cases hp : provider (resolveSystemMessage req.tone) req.text with
    | error e =>
        rw [hp] at h
        simp at h
    | ok completion =>
        rw [hp] at h
        simp only [Except.ok.injEq] at h
        subst h
        exact ⟨rfl, rfl⟩

/-- Witness for C9: a successful call with the unrecognized tone
"invalid_tone" echoes text and tone verbatim. -/
theorem rephrase_echoes_request_witness :
    (mkRephraseResponse ⟨"Test text", "invalid_tone"⟩ "Rephrased.").original_text =
      "Test text" ∧
    (mkRephraseResponse ⟨"Test text", "invalid_tone"⟩ "Rephrased.").tone =
      "invalid_tone" :=
  rephrase_echoes_request [] ⟨"Test text", "invalid_tone"⟩ (some "key")
    (fun _ _ => Except.ok "Rephrased.")
    (mkRephraseResponse ⟨"Test text", "invalid_tone"⟩ "Rephrased.") rfl

end Humanizer
